import Mathlib

/-!
Verification of the CV-Fighter gesture-recognition core.

This file gives a shallow embedding of the calibration subsystem
(`calibration.py`) and the gesture-recognition engine
(`gesture_recognizer.py`): the five geometric/kinematic detectors, the
priority arbitration done in `GestureRecognizer.recognize`, and the
confirmation/cooldown state machine (`GestureStateMachine`).

Modelling conventions:
- Python floats are modelled as `ℝ` for geometric quantities (the lean
  detector needs `atan2`, the punch detector and the calibrator need
  `sqrt`) and as `ℚ` for the purely arithmetic clock/confidence values of
  the state machine and the calibration timer, so that concrete traces
  can be decided.
- A Python `ZeroDivisionError` is modelled explicitly: a function that can
  divide by zero returns a `DivResult`, with `DivResult.divByZero`
  standing for the raised exception.
- Mutable object state (`PunchDetector.prev_landmarks`,
  `PunchDetector.velocity_history`, `GestureStateMachine` fields,
  `CalibrationSystem` fields) is threaded explicitly: each method becomes
  a function from the old state to the result paired with the new state.
- `dict.get(key, 0)` is modelled by a total function that is `0` outside
  the assigned keys, and `dict[key] = v` by `Function.update`.
-/

/-! ## Configuration (`config.py`) -/

/-- Source `config.THRESHOLDS["lean_angle"]` (degrees from vertical). -/
def lean_angle : ℝ := 15.0

/-- Source `config.THRESHOLDS["hands_raised_ratio"]`. -/
def hands_raised_ratio : ℝ := 0.2

/-- Source `config.THRESHOLDS["squat_drop_ratio"]`. -/
def squat_drop_ratio : ℝ := 0.25

/-- Source `config.THRESHOLDS["punch_velocity"]` (normalized units per second). -/
def punch_velocity : ℝ := 1.5

/-- Source `config.THRESHOLDS["punch_depth"]`. -/
def punch_depth : ℝ := 0.15

/-- Source `config.THRESHOLDS["crossed_arms_offset"]`. -/
def crossed_arms_offset : ℝ := 0.1

/-- Source `config.THRESHOLDS["min_visibility"]`. -/
def min_visibility : ℝ := 0.5

/-- Source `config.TIMING["confirmation_duration"]` (seconds). -/
def confirmation_duration : ℚ := 0.1

/-- Source `config.TIMING["cooldown_duration"]` (seconds). -/
def cooldown_duration : ℚ := 0.2

/-- Source `config.TIMING["calibration_duration"]` (seconds). -/
def calibration_duration : ℚ := 3.0

/-! ## Landmark frames (§3 of the spec; the `landmarks` dict of the source) -/

/-- One tracked joint: the `(x, y, z, visibility)` 4-tuple of the source. -/
structure Landmark where
  x : ℝ
  y : ℝ
  z : ℝ
  visibility : ℝ

/-- A landmark frame: the joints the core reads, plus the timestamp.
The source accesses `landmarks['left_shoulder']`, …, `landmarks['timestamp']`. -/
structure Frame where
  left_shoulder : Landmark
  right_shoulder : Landmark
  left_hip : Landmark
  right_hip : Landmark
  left_wrist : Landmark
  right_wrist : Landmark
  timestamp : ℝ

/-! ## Gesture state machine (`GestureStateMachine`) -/

/-- Source `GestureState` enum of `gesture_recognizer.py`. -/
inductive GestureState where
  | IDLE : GestureState
  | GESTURE_STARTING : GestureState
  | GESTURE_CONFIRMED : GestureState
  | COOLDOWN : GestureState
deriving DecidableEq

/-- Source `GestureEvent` dataclass. `gesture_type` is an `Option` because the
source stores `self.current_gesture`, which is `None`-able. -/
structure GestureEvent where
  gesture_type : Option String
  confidence : ℚ
  timestamp : ℚ
  state : GestureState
deriving DecidableEq

/-- The mutable fields of `GestureStateMachine`. `last_trigger_time` is a
Python dict read only through `.get(key, 0)`; it is modelled as a total
function defaulting to `0`. -/
structure SMState where
  state : GestureState
  current_gesture : Option String
  gesture_start_time : ℚ
  last_trigger_time : Option String → ℚ
  confirmation_threshold : ℚ
  cooldown_duration : ℚ

/-- Source `GestureStateMachine.__init__`. -/
def initStateMachine : SMState :=
  ⟨GestureState.IDLE, none, 0, fun _ => 0, confirmation_duration, cooldown_duration⟩

/-- Python truthiness of the `Optional[str]` candidate, as used in
`if detected_gesture and confidence > 0.7` (both `None` and `""` are falsy). -/
def strTruthy : Option String → Bool
  | none => false
  | some s => !(s == "")

/-- Source `GestureStateMachine.update`, returning the optional emitted event and
the updated machine state. -/
def smUpdate (sm : SMState) (detected_gesture : Option String) (confidence : ℚ)
    (current_time : ℚ) : Option GestureEvent × SMState :=
  match sm.state with
  | GestureState.IDLE =>
    if strTruthy detected_gesture ∧ confidence > 0.7 then
      (none, { sm with
                state := GestureState.GESTURE_STARTING
                current_gesture := detected_gesture
                gesture_start_time := current_time })
    else (none, sm)
  | GestureState.GESTURE_STARTING =>
    if detected_gesture = sm.current_gesture then
      if current_time - sm.gesture_start_time > sm.confirmation_threshold then
        -- the source sets `self.state = GESTURE_CONFIRMED` and then builds the
        -- event from `self.current_gesture`, the call's `confidence`,
        -- `current_time` and the (already updated) `self.state`
        (some ⟨sm.current_gesture, confidence, current_time,
               GestureState.GESTURE_CONFIRMED⟩,
         { sm with state := GestureState.GESTURE_CONFIRMED })
      else (none, sm)
    else
      (none, { sm with state := GestureState.IDLE, current_gesture := none })
  | GestureState.GESTURE_CONFIRMED =>
    (none, { sm with
              state := GestureState.COOLDOWN
              last_trigger_time :=
                Function.update sm.last_trigger_time sm.current_gesture current_time })
  | GestureState.COOLDOWN =>
    if current_time - sm.last_trigger_time sm.current_gesture > sm.cooldown_duration then
      (none, { sm with state := GestureState.IDLE, current_gesture := none })
    else (none, sm)

/-! ## Branch lemmas for `smUpdate` (one per source branch) -/

/-- IDLE with a truthy candidate above the 0.7 confidence gate. -/
lemma smUpdate_idle_pos (sm : SMState) (d : Option String) (conf t : ℚ)
    (h0 : sm.state = GestureState.IDLE) (h1 : strTruthy d = true)
    (h2 : conf > 0.7) :
    smUpdate sm d conf t =
      (none, { sm with
                state := GestureState.GESTURE_STARTING
                current_gesture := d
                gesture_start_time := t }) := by
  unfold smUpdate
  rw [h0, if_pos ⟨h1, h2⟩]

/-- GESTURE_STARTING with the same candidate after the confirmation duration. -/
lemma smUpdate_starting_pos (sm : SMState) (d : Option String) (conf t : ℚ)
    (h0 : sm.state = GestureState.GESTURE_STARTING) (h1 : d = sm.current_gesture)
    (h2 : t - sm.gesture_start_time > sm.confirmation_threshold) :
    smUpdate sm d conf t =
      (some ⟨sm.current_gesture, conf, t, GestureState.GESTURE_CONFIRMED⟩,
       { sm with state := GestureState.GESTURE_CONFIRMED }) := by
  unfold smUpdate
  rw [h0, if_pos h1, if_pos h2]

/-- GESTURE_CONFIRMED ignores its input entirely. -/
lemma smUpdate_confirmed (sm : SMState) (d : Option String) (conf t : ℚ)
    (h0 : sm.state = GestureState.GESTURE_CONFIRMED) :
    smUpdate sm d conf t =
      (none, { sm with
                state := GestureState.COOLDOWN
                last_trigger_time :=
                  Function.update sm.last_trigger_time sm.current_gesture t }) := by
  unfold smUpdate
  rw [h0]

/-- COOLDOWN after the cooldown duration has elapsed. -/
lemma smUpdate_cooldown_expire (sm : SMState) (d : Option String) (conf t : ℚ)
    (h0 : sm.state = GestureState.COOLDOWN)
    (h1 : t - sm.last_trigger_time sm.current_gesture > sm.cooldown_duration) :
    smUpdate sm d conf t =
      (none, { sm with state := GestureState.IDLE, current_gesture := none }) := by
  unfold smUpdate
  rw [h0, if_pos h1]

/-- COOLDOWN before the cooldown duration has elapsed: no change at all. -/
lemma smUpdate_cooldown_hold (sm : SMState) (d : Option String) (conf t : ℚ)
    (h0 : sm.state = GestureState.COOLDOWN)
    (h1 : ¬ t - sm.last_trigger_time sm.current_gesture > sm.cooldown_duration) :
    smUpdate sm d conf t = (none, sm) := by
  unfold smUpdate
  rw [h0, if_neg h1]

/-! ## Claims about the state machine -/

/-- First call of the C2 round trip: ("jump", 0.8, t = 0) on the fresh machine. -/
def rt1 : Option GestureEvent × SMState :=
  smUpdate initStateMachine (some "jump") 0.8 0

/-- Second call of the C2 round trip: ("jump", 0.8, t = 0.15). -/
def rt2 : Option GestureEvent × SMState :=
  smUpdate rt1.2 (some "jump") 0.8 0.15

/-- Third call of the C2 round trip: any candidate at t = 0.16. -/
def rt3 (cand : Option String) (conf : ℚ) : Option GestureEvent × SMState :=
  smUpdate rt2.2 cand conf 0.16

/-- Fourth call of the C2 round trip: ("jump", 0.8, t = 0.50). -/
def rt4 (cand : Option String) (conf : ℚ) : Option GestureEvent × SMState :=
  smUpdate (rt3 cand conf).2 (some "jump") 0.8 0.5

/-- Machine state after the first C2 call. -/
def rtS1 : SMState :=
  { initStateMachine with
     state := GestureState.GESTURE_STARTING
     current_gesture := some "jump"
     gesture_start_time := 0 }

/-- Machine state after the second C2 call. -/
def rtS2 : SMState := { rtS1 with state := GestureState.GESTURE_CONFIRMED }

/-- Machine state after the third C2 call. -/
def rtS3 : SMState :=
  { rtS2 with
     state := GestureState.COOLDOWN
     last_trigger_time :=
       Function.update rtS2.last_trigger_time rtS2.current_gesture 0.16 }

/-- C2: starting from the initial machine (confirmation 0.1 s, cooldown 0.2 s),
feeding ("jump", 0.8, t=0) gives state GESTURE_STARTING and no event;
("jump", 0.8, t=0.15) gives GESTURE_CONFIRMED and an event with gesture
"jump"; the next call at t=0.16 with any candidate gives COOLDOWN and no
event; ("jump", 0.8, t=0.50) gives IDLE and no event. -/
theorem sm_round_trip :
    rt1.2.state = GestureState.GESTURE_STARTING ∧ rt1.1 = none ∧
    rt2.2.state = GestureState.GESTURE_CONFIRMED ∧
    (∃ e, rt2.1 = some e ∧ e.gesture_type = some "jump") ∧
    ∀ cand : Option String, ∀ conf : ℚ,
      (rt3 cand conf).2.state = GestureState.COOLDOWN ∧
      (rt3 cand conf).1 = none ∧
      (rt4 cand conf).2.state = GestureState.IDLE ∧
      (rt4 cand conf).1 = none := by
  have e1 : rt1 = (none, rtS1) :=
    smUpdate_idle_pos initStateMachine (some "jump") 0.8 0 rfl
      (by simp [strTruthy]) (by norm_num)
  have e2 : rt2 =
      (some ⟨some "jump", 0.8, 0.15, GestureState.GESTURE_CONFIRMED⟩, rtS2) := by
    show smUpdate rt1.2 (some "jump") 0.8 0.15 = _
    rw [e1]
    exact smUpdate_starting_pos rtS1 (some "jump") 0.8 0.15 rfl rfl
      (by norm_num [rtS1, initStateMachine, confirmation_duration])
  have e3 : ∀ cand conf, rt3 cand conf = (none, rtS3) := by
    intro cand conf
    show smUpdate rt2.2 cand conf 0.16 = _
    rw [e2]
    exact smUpdate_confirmed rtS2 cand conf 0.16 rfl
  have e4 : ∀ cand conf, rt4 cand conf =
      (none, { rtS3 with state := GestureState.IDLE, current_gesture := none }) := by
    intro cand conf
    show smUpdate (rt3 cand conf).2 (some "jump") 0.8 0.5 = _
    rw [e3]
    refine smUpdate_cooldown_expire rtS3 (some "jump") 0.8 0.5 rfl ?_
    norm_num [rtS3, rtS2, rtS1, initStateMachine, Function.update, cooldown_duration]
  refine ⟨by rw [e1]; rfl, by rw [e1], by rw [e2]; rfl,
    ⟨⟨some "jump", 0.8, 0.15, GestureState.GESTURE_CONFIRMED⟩, by rw [e2], rfl⟩, ?_⟩
  intro cand conf
  exact ⟨by rw [e3]; rfl, by rw [e3], by rw [e4], by rw [e4]⟩

/-- C3: while the machine is in COOLDOWN for gesture G and the elapsed time
since G's last trigger does not exceed the cooldown duration, `update`
leaves the whole machine state unchanged (so the state stays COOLDOWN and
the current gesture stays G) and emits no event, whatever candidate and
confidence are supplied. -/
theorem cooldown_not_preempted (sm : SMState) (G : String) (cand : Option String)
    (conf t : ℚ)
    (h1 : sm.state = GestureState.COOLDOWN)
    (h2 : sm.current_gesture = some G)
    (h3 : t - sm.last_trigger_time (some G) ≤ sm.cooldown_duration) :
    smUpdate sm cand conf t = (none, sm) := by
  unfold smUpdate
  rw [h1]
  rw [h2, if_neg (not_lt.mpr h3)]

/-- Concrete machine in COOLDOWN for "jump" (triggered at t = 0.16),
used to witness `cooldown_not_preempted`. -/
def smCooldown : SMState :=
  ⟨GestureState.COOLDOWN, some "jump", 0,
   Function.update (fun _ => 0) (some "jump") 0.16,
   confirmation_duration, cooldown_duration⟩

/-- Witness for C3: at t = 0.3 (0.14 s into a 0.2 s cooldown for "jump"),
a different candidate "block" with high confidence changes nothing. -/
theorem cooldown_not_preempted_witness :
    smUpdate smCooldown (some "block") 0.9 0.3 = (none, smCooldown) :=
  cooldown_not_preempted smCooldown "jump" (some "block") 0.9 0.3 rfl rfl
    (by norm_num [smCooldown, Function.update, cooldown_duration])

/-- C9: in GESTURE_STARTING, when the candidate equals the current gesture
and the confirmation duration has elapsed, the machine moves to
GESTURE_CONFIRMED and emits an event carrying this call's confidence and
timestamp — with no condition on that confidence. -/
theorem starting_confirms_any_confidence (sm : SMState) (cand : Option String)
    (conf t : ℚ)
    (h1 : sm.state = GestureState.GESTURE_STARTING)
    (h2 : cand = sm.current_gesture)
    (h3 : t - sm.gesture_start_time > sm.confirmation_threshold) :
    smUpdate sm cand conf t =
      (some ⟨sm.current_gesture, conf, t, GestureState.GESTURE_CONFIRMED⟩,
       { sm with state := GestureState.GESTURE_CONFIRMED }) := by
  unfold smUpdate
  rw [h1]
  rw [if_pos h2, if_pos h3]

/-- Concrete machine in GESTURE_STARTING for "jump" since t = 0. -/
def smStarting : SMState :=
  ⟨GestureState.GESTURE_STARTING, some "jump", 0, fun _ => 0,
   confirmation_duration, cooldown_duration⟩

/-- Witness for C9: at t = 0.2 with confidence 0 the machine still confirms,
and the event carries confidence 0. -/
theorem starting_confirms_any_confidence_witness :
    smUpdate smStarting (some "jump") 0 0.2 =
      (some ⟨some "jump", 0, 0.2, GestureState.GESTURE_CONFIRMED⟩,
       { smStarting with state := GestureState.GESTURE_CONFIRMED }) :=
  starting_confirms_any_confidence smStarting (some "jump") 0 0.2 rfl rfl
    (by norm_num [smStarting, confirmation_duration])

/-! ## Calibration baseline data (`CalibrationData` in `calibration.py`) -/

/-- The `CalibrationData` dataclass: the five baseline scalars, the
`is_calibrated` flag and the collected calibration frames. -/
structure CalibrationData where
  neutral_torso_angle : ℝ
  shoulder_width : ℝ
  torso_length : ℝ
  neutral_hip_height : ℝ
  wrist_neutral_z : ℝ
  is_calibrated : Bool
  calibration_frames : List Frame

/-- Source `CalibrationData()` with the dataclass defaults (all zeros). -/
def initCalibrationData : CalibrationData := ⟨0, 0, 0, 0, 0, false, []⟩

/-! ## Shared geometric quantities of the detectors -/

/-- Source `(landmarks['left_shoulder'][0] + landmarks['right_shoulder'][0]) / 2`. -/
noncomputable def shoulder_center_x (f : Frame) : ℝ := (f.left_shoulder.x + f.right_shoulder.x) / 2

/-- Source `(landmarks['left_shoulder'][1] + landmarks['right_shoulder'][1]) / 2`. -/
noncomputable def shoulder_center_y (f : Frame) : ℝ := (f.left_shoulder.y + f.right_shoulder.y) / 2

/-- Source `(landmarks['left_hip'][0] + landmarks['right_hip'][0]) / 2`. -/
noncomputable def hip_center_x (f : Frame) : ℝ := (f.left_hip.x + f.right_hip.x) / 2

/-- Source `(landmarks['left_hip'][1] + landmarks['right_hip'][1]) / 2`. -/
noncomputable def hip_center_y (f : Frame) : ℝ := (f.left_hip.y + f.right_hip.y) / 2

/-- Python's `math.atan2(y, x)` on reals: the angle of the point `(x, y)`,
in `(-π, π]` away from the negative-`y`-input edge cases of signed zero,
which do not arise for exact reals. -/
noncomputable def atan2 (y x : ℝ) : ℝ :=
  if 0 < x then Real.arctan (y / x)
  else if x < 0 then
    if 0 ≤ y then Real.arctan (y / x) + Real.pi
    else Real.arctan (y / x) - Real.pi
  else if 0 < y then Real.pi / 2
  else if y < 0 then -(Real.pi / 2)
  else 0

/-- Source `math.degrees`. -/
noncomputable def degrees (r : ℝ) : ℝ := r * 180 / Real.pi

/-- The torso-tilt angle `math.degrees(math.atan2(dx, dy))` computed identically
by `LeanDetector.detect` and `CalibrationSystem._finalize_calibration`. -/
noncomputable def frameTorsoAngle (f : Frame) : ℝ :=
  degrees (atan2 (shoulder_center_x f - hip_center_x f)
                 (shoulder_center_y f - hip_center_y f))

/-- Fact: `atan2 0 x = 0` when `x` is nonnegative. -/
lemma atan2_zero_nonneg (x : ℝ) (h : 0 ≤ x) : atan2 0 x = 0 := by
  rcases lt_or_eq_of_le h with h' | h'
  · rw [atan2, if_pos h', zero_div, Real.arctan_zero]
  · rw [atan2, if_neg (by rw [← h']; exact lt_irrefl 0),
      if_neg (by rw [← h']; exact lt_irrefl 0), if_neg (lt_irrefl 0),
      if_neg (lt_irrefl 0)]

/-- Fact: `atan2 0 x = π` when `x` is negative (Python: `atan2(0.0, x) == pi`). -/
lemma atan2_zero_neg (x : ℝ) (h : x < 0) : atan2 0 x = Real.pi := by
  rw [atan2, if_neg (not_lt.mpr (le_of_lt h)), if_pos h, if_pos (le_refl 0),
    zero_div, Real.arctan_zero, zero_add]

/-- Fact: `degrees π = 180`. -/
lemma degrees_pi : degrees Real.pi = 180 := by
  rw [degrees, mul_comm, mul_div_assoc, div_self Real.pi_ne_zero, mul_one]

/-- Fact: `degrees 0 = 0`. -/
lemma degrees_zero : degrees 0 = 0 := by
  rw [degrees, zero_mul, zero_div]

/-! ## Lean detector (`LeanDetector.detect`) -/

open Classical in
/-- Source `LeanDetector.detect`: classifies the torso tilt relative to the
calibrated neutral angle, threshold `lean_angle` (15°). -/
noncomputable def leanDetect (f : Frame) (c : CalibrationData) : Option String :=
  if frameTorsoAngle f - c.neutral_torso_angle < -lean_angle then some "lean_left"
  else if frameTorsoAngle f - c.neutral_torso_angle > lean_angle then some "lean_right"
  else none

/-! ## Hands-raised detector (`HandsRaisedDetector.detect`) -/

/-- Source `torso_length = abs(shoulder_avg_y - hip_center_y)` computed per frame. -/
noncomputable def frame_torso_length (f : Frame) : ℝ := |shoulder_center_y f - hip_center_y f|

open Classical in
/-- Source `HandsRaisedDetector.detect`: both wrists strictly above the shoulder
line by more than `hands_raised_ratio × torso_length`, and both wrist
visibilities strictly above `min_visibility`. -/
noncomputable def handsRaisedDetect (f : Frame) : Bool :=
  decide ((f.left_wrist.y < shoulder_center_y f -
            hands_raised_ratio * frame_torso_length f) ∧
          (f.right_wrist.y < shoulder_center_y f -
            hands_raised_ratio * frame_torso_length f) ∧
          (f.left_wrist.visibility > min_visibility ∧
           f.right_wrist.visibility > min_visibility))

/-! ## Claims about the hands-raised detector (C5) -/

/-- C5 (amended): the hands-raised detector fires iff both wrists are above
the shoulder-line average by STRICTLY more than 0.2 × torso_length and both
wrist visibilities exceed 0.5. (The source uses a strict `<`; the boundary
case "above by exactly 0.2 × torso_length" does NOT fire.) -/
theorem hands_raised_iff (f : Frame) :
    handsRaisedDetect f = true ↔
      (shoulder_center_y f - f.left_wrist.y >
         hands_raised_ratio * frame_torso_length f ∧
       shoulder_center_y f - f.right_wrist.y >
         hands_raised_ratio * frame_torso_length f ∧
       f.left_wrist.visibility > min_visibility ∧
       f.right_wrist.visibility > min_visibility) := by
  rw [handsRaisedDetect, decide_eq_true_eq]
  constructor
  · rintro ⟨h1, h2, h3, h4⟩
    exact ⟨by linarith, by linarith, h3, h4⟩
  · rintro ⟨h1, h2, h3, h4⟩
    exact ⟨by linarith, by linarith, h3, h4⟩

/-- A frame whose two wrists are above the shoulder line by exactly
`0.2 × torso_length` (shoulders at y = 0.7, hips at y = 0.3, torso 0.4,
wrists at y = 0.62 = 0.7 − 0.2·0.4), with full visibility. -/
def handsBoundaryFrame : Frame :=
  ⟨⟨0.4, 0.7, 0, 1⟩, ⟨0.6, 0.7, 0, 1⟩,
   ⟨0.4, 0.3, 0, 1⟩, ⟨0.6, 0.3, 0, 1⟩,
   ⟨0.5, 0.62, 0, 1⟩, ⟨0.5, 0.62, 0, 1⟩, 0⟩

/-- C5 counterexample: on `handsBoundaryFrame` both wrists are above the
shoulder line by exactly `0.2 × torso_length` and fully visible, yet
`HandsRaisedDetector.detect` returns `false` (the claim's
"greater-or-equal at the boundary yields true" fails). -/
theorem hands_raised_boundary_counterexample :
    shoulder_center_y handsBoundaryFrame - handsBoundaryFrame.left_wrist.y =
      hands_raised_ratio * frame_torso_length handsBoundaryFrame ∧
    shoulder_center_y handsBoundaryFrame - handsBoundaryFrame.right_wrist.y =
      hands_raised_ratio * frame_torso_length handsBoundaryFrame ∧
    handsBoundaryFrame.left_wrist.visibility > min_visibility ∧
    handsBoundaryFrame.right_wrist.visibility > min_visibility ∧
    handsRaisedDetect handsBoundaryFrame = false := by
  have hs : shoulder_center_y handsBoundaryFrame = 0.7 := by
    rw [shoulder_center_y]
    norm_num [handsBoundaryFrame]
  have hh : hip_center_y handsBoundaryFrame = 0.3 := by
    rw [hip_center_y]
    norm_num [handsBoundaryFrame]
  have ht : frame_torso_length handsBoundaryFrame = 0.4 := by
    rw [frame_torso_length, hs, hh, show (0.7 : ℝ) - 0.3 = 0.4 by norm_num]
    exact abs_of_nonneg (by norm_num)
  have hlw : handsBoundaryFrame.left_wrist.y = 0.62 := rfl
  have hrw : handsBoundaryFrame.right_wrist.y = 0.62 := rfl
  refine ⟨by rw [hs, ht, hlw]; norm_num [hands_raised_ratio],
          by rw [hs, ht, hrw]; norm_num [hands_raised_ratio],
          by norm_num [handsBoundaryFrame, min_visibility],
          by norm_num [handsBoundaryFrame, min_visibility], ?_⟩
  rw [handsRaisedDetect, decide_eq_false_iff_not]
  rintro ⟨h1, -, -⟩
  rw [hs, ht, hlw] at h1
  norm_num [hands_raised_ratio] at h1

/-! ## Claims about the lean detector (C8) -/

/-- C8 (amended): for a frame mirror-symmetric about the vertical centerline
whose shoulder center is NOT above the hip center in image coordinates
(`hip_center_y ≤ shoulder_center_y`, so `dy ≥ 0`), and a baseline with
neutral angle 0, the lean detector reports no detection. -/
theorem lean_detector_symmetric (f : Frame) (c : CalibrationData)
    (hsx : f.left_shoulder.x + f.right_shoulder.x = 1)
    (hhx : f.left_hip.x + f.right_hip.x = 1)
    (hn : c.neutral_torso_angle = 0)
    (hdy : hip_center_y f ≤ shoulder_center_y f) :
    leanDetect f c = none := by
  have hdx : shoulder_center_x f - hip_center_x f = 0 := by
    rw [shoulder_center_x, hip_center_x, hsx, hhx]
    norm_num
  have hangle : frameTorsoAngle f = 0 := by
    rw [frameTorsoAngle, hdx, atan2_zero_nonneg _ (sub_nonneg.mpr hdy), degrees_zero]
  rw [leanDetect, hangle, hn,
    if_neg (by norm_num [lean_angle]), if_neg (by norm_num [lean_angle])]

/-- A mirror-symmetric frame in the usual image orientation: shoulders
(y = 0.3) above hips (y = 0.7), shoulder xs 0.3/0.7, hip xs 0.35/0.65. -/
def leanSymFrame : Frame :=
  ⟨⟨0.3, 0.3, 0, 1⟩, ⟨0.7, 0.3, 0, 1⟩,
   ⟨0.35, 0.7, 0, 1⟩, ⟨0.65, 0.7, 0, 1⟩,
   ⟨0.5, 0.5, 0, 1⟩, ⟨0.5, 0.5, 0, 1⟩, 0⟩

/-- A mirror-symmetric frame with the shoulder center BELOW the hip center
(y = 0.7 vs 0.3), satisfying the amended hypothesis `dy ≥ 0`. -/
def leanSymFrameDyPos : Frame :=
  ⟨⟨0.3, 0.7, 0, 1⟩, ⟨0.7, 0.7, 0, 1⟩,
   ⟨0.35, 0.3, 0, 1⟩, ⟨0.65, 0.3, 0, 1⟩,
   ⟨0.5, 0.5, 0, 1⟩, ⟨0.5, 0.5, 0, 1⟩, 0⟩

/-- A baseline whose neutral torso angle is 0. -/
def calibNeutralZero : CalibrationData := ⟨0, 0.4, 0.4, 0.7, 0, true, []⟩

/-- C8 counterexample: `leanSymFrame` is mirror-symmetric about the vertical
centerline and the baseline neutral angle is 0, yet — because the shoulders
are above the hips in image coordinates, so `atan2(0, dy<0) = 180°` — the
lean detector reports "lean_right" instead of no detection. -/
theorem lean_symmetric_counterexample :
    leanSymFrame.left_shoulder.x + leanSymFrame.right_shoulder.x = 1 ∧
    leanSymFrame.left_hip.x + leanSymFrame.right_hip.x = 1 ∧
    leanSymFrame.left_shoulder.y = leanSymFrame.right_shoulder.y ∧
    leanSymFrame.left_hip.y = leanSymFrame.right_hip.y ∧
    calibNeutralZero.neutral_torso_angle = 0 ∧
    leanDetect leanSymFrame calibNeutralZero = some "lean_right" := by
  refine ⟨by norm_num [leanSymFrame], by norm_num [leanSymFrame], rfl, rfl, rfl, ?_⟩
  have hdx : shoulder_center_x leanSymFrame - hip_center_x leanSymFrame = 0 := by
    rw [shoulder_center_x, hip_center_x]
    norm_num [leanSymFrame]
  have hdy : shoulder_center_y leanSymFrame - hip_center_y leanSymFrame < 0 := by
    rw [shoulder_center_y, hip_center_y]
    norm_num [leanSymFrame]
  have hangle : frameTorsoAngle leanSymFrame = 180 := by
    rw [frameTorsoAngle, hdx, atan2_zero_neg _ hdy, degrees_pi]
  rw [leanDetect, hangle, show calibNeutralZero.neutral_torso_angle = 0 from rfl,
    if_neg (by norm_num [lean_angle]), if_pos (by norm_num [lean_angle])]

/-- Witness for the amended C8 on `leanSymFrameDyPos`. -/
theorem lean_detector_symmetric_witness :
    leanDetect leanSymFrameDyPos calibNeutralZero = none :=
  lean_detector_symmetric leanSymFrameDyPos calibNeutralZero
    (by norm_num [leanSymFrameDyPos]) (by norm_num [leanSymFrameDyPos]) rfl
    (by rw [hip_center_y, shoulder_center_y]; norm_num [leanSymFrameDyPos])

/-! ## Squat detector (`SquatDetector.detect`) -/

/-- Result of a Python computation that may raise `ZeroDivisionError`. -/
inductive DivResult (α : Type) where
  | ok : α → DivResult α
  | divByZero : DivResult α
deriving DecidableEq

open Classical in
/-- The comparison `SquatDetector.detect` evaluates when the division is
defined: `(hip_center_y − neutral_hip_height) / torso_length > 0.25`. -/
noncomputable def squatVal (f : Frame) (c : CalibrationData) : Bool :=
  decide ((hip_center_y f - c.neutral_hip_height) / c.torso_length >
    squat_drop_ratio)

open Classical in
/-- Source `SquatDetector.detect`. The source computes
`hip_drop / calibration.torso_length` with no guard, so a zero baseline
torso length raises `ZeroDivisionError` in Python; that raise is modelled
as `DivResult.divByZero`. -/
noncomputable def squatDetect (f : Frame) (c : CalibrationData) : DivResult Bool :=
  if c.torso_length = 0 then DivResult.divByZero
  else DivResult.ok (squatVal f c)

/-- C1 (code behaviour at the failing input): with the default, un-calibrated
baseline (`torso_length = 0`), `SquatDetector.detect` raises
`ZeroDivisionError` instead of reporting no detection. -/
theorem squat_zero_torso_raises :
    squatDetect leanSymFrame initCalibrationData = DivResult.divByZero := by
  rw [squatDetect, if_pos (show initCalibrationData.torso_length = 0 from rfl)]

/-! ## Crossed-arms detector (`CrossedArmsDetector.detect`) -/

open Classical in
/-- Source `CrossedArmsDetector.detect`: left wrist right of body-center + offset,
right wrist left of body-center − offset, both wrists vertically strictly
between the shoulder line and the hip line, both visibilities above 0.5. -/
noncomputable def crossedArmsDetect (f : Frame) : Bool :=
  decide ((f.left_wrist.x > shoulder_center_x f + crossed_arms_offset) ∧
          (f.right_wrist.x < shoulder_center_x f - crossed_arms_offset) ∧
          (shoulder_center_y f < f.left_wrist.y ∧ f.left_wrist.y < hip_center_y f) ∧
          (shoulder_center_y f < f.right_wrist.y ∧ f.right_wrist.y < hip_center_y f) ∧
          (f.left_wrist.visibility > min_visibility ∧
           f.right_wrist.visibility > min_visibility))

/-! ## Punch detector (`PunchDetector`) -/

/-- The mutable fields of `PunchDetector`: the stored previous frame and the
two `deque(maxlen=3)` velocity histories (`velocity_history['left']` /
`['right']`). -/
structure PunchState where
  prev_landmarks : Option Frame
  vel_hist_left : List ℝ
  vel_hist_right : List ℝ

/-- Source `PunchDetector.__init__`. -/
def initPunchState : PunchState := ⟨none, [], []⟩

/-- Appending to a `deque(maxlen=3)`: keep the last three elements. -/
def dequePush (h : List ℝ) (v : ℝ) : List ℝ :=
  (h ++ [v]).drop ((h ++ [v]).length - 3)

/-- Source `PunchDetector._calculate_velocity`: planar speed `sqrt(dx²+dy²)/dt`. -/
noncomputable def calculate_velocity (cur prev : Landmark) (dt : ℝ) : ℝ :=
  Real.sqrt ((cur.x - prev.x) ^ 2 + (cur.y - prev.y) ^ 2) / dt

open Classical in
/-- Source `sum(h)/len(h) if h else 0` — the average of a velocity history. -/
noncomputable def avgVel (h : List ℝ) : ℝ := if h = [] then 0 else h.sum / h.length

open Classical in
/-- Source `PunchDetector.detect`. Note the order of effects in the source: on the
first call the frame is buffered and `None` returned; when `dt < 0.001` the
call returns `None` WITHOUT touching `prev_landmarks` or the histories
(the `self.prev_landmarks = landmarks` assignment is only reached after the
velocity computations); otherwise histories and previous frame are updated
and the right hand is checked before the left. -/
noncomputable def punchDetect (f : Frame) (c : CalibrationData) (st : PunchState) :
    Option String × PunchState :=
  match st.prev_landmarks with
  | none => (none, { st with prev_landmarks := some f })
  | some prev =>
    if f.timestamp - prev.timestamp < 0.001 then (none, st)
    else
      let dt := f.timestamp - prev.timestamp
      let hl := dequePush st.vel_hist_left
        (calculate_velocity f.left_wrist prev.left_wrist dt)
      let hr := dequePush st.vel_hist_right
        (calculate_velocity f.right_wrist prev.right_wrist dt)
      let st' : PunchState := ⟨some f, hl, hr⟩
      if avgVel hr > punch_velocity ∧
         f.right_wrist.z - c.wrist_neutral_z < -punch_depth ∧
         f.right_wrist.visibility > min_visibility then
        (some "punch_right", st')
      else if avgVel hl > punch_velocity ∧
         f.left_wrist.z - c.wrist_neutral_z < -punch_depth ∧
         f.left_wrist.visibility > min_visibility then
        (some "punch_left", st')
      else (none, st')

/-! ## Claims about the punch detector (C4) -/

/-- C4 (amended): when a previous frame is stored and the timestamp delta is
below 0.001 s, the detector returns no detection and leaves its entire
state — including the stored previous frame — UNCHANGED (the input frame is
not buffered). -/
theorem punch_small_dt_no_update (f : Frame) (c : CalibrationData)
    (st : PunchState) (prev : Frame)
    (h1 : st.prev_landmarks = some prev)
    (h2 : f.timestamp - prev.timestamp < 0.001) :
    punchDetect f c st = (none, st) := by
  unfold punchDetect
  rw [h1]
  exact if_pos h2

/-- Previous frame stored by the punch detector (timestamp 0). -/
def punchFrame0 : Frame :=
  ⟨⟨0.4, 0.3, 0, 1⟩, ⟨0.6, 0.3, 0, 1⟩, ⟨0.4, 0.7, 0, 1⟩, ⟨0.6, 0.7, 0, 1⟩,
   ⟨0.2, 0.5, 0, 1⟩, ⟨0.8, 0.5, 0, 1⟩, 0⟩

/-- Next frame, 0.0005 s later (below the 0.001 s epsilon). -/
def punchFrame1 : Frame :=
  ⟨⟨0.4, 0.3, 0, 1⟩, ⟨0.6, 0.3, 0, 1⟩, ⟨0.4, 0.7, 0, 1⟩, ⟨0.6, 0.7, 0, 1⟩,
   ⟨0.2, 0.5, 0, 1⟩, ⟨0.8, 0.5, 0, 1⟩, 0.0005⟩

/-- C4 counterexample: with `punchFrame0` buffered and `punchFrame1` arriving
0.0005 s later, the detector returns no detection but the stored previous
frame is NOT updated to the current frame — it still holds `punchFrame0`. -/
theorem punch_small_dt_counterexample :
    punchFrame1.timestamp - punchFrame0.timestamp < 0.001 ∧
    (punchDetect punchFrame1 initCalibrationData
      ⟨some punchFrame0, [], []⟩).1 = none ∧
    (punchDetect punchFrame1 initCalibrationData
      ⟨some punchFrame0, [], []⟩).2.prev_landmarks ≠ some punchFrame1 := by
  have hdt : punchFrame1.timestamp - punchFrame0.timestamp < 0.001 := by
    norm_num [punchFrame0, punchFrame1]
  have e : punchDetect punchFrame1 initCalibrationData
      ⟨some punchFrame0, [], []⟩ = (none, ⟨some punchFrame0, [], []⟩) := by
    unfold punchDetect
    exact if_pos hdt
  refine ⟨hdt, by rw [e], ?_⟩
  rw [e]
  intro hcontra
  have ht : punchFrame0.timestamp = punchFrame1.timestamp := by
    rw [Option.some_inj.mp hcontra]
  norm_num [punchFrame0, punchFrame1] at ht

/-- Witness for the amended C4 at the same concrete input. -/
theorem punch_small_dt_no_update_witness :
    punchDetect punchFrame1 initCalibrationData ⟨some punchFrame0, [], []⟩ =
      (none, ⟨some punchFrame0, [], []⟩) :=
  punch_small_dt_no_update punchFrame1 initCalibrationData
    ⟨some punchFrame0, [], []⟩ punchFrame0 rfl
    (by norm_num [punchFrame0, punchFrame1])

/-! ## Arbitration (`GestureRecognizer.recognize`, candidate selection part) -/

open Classical in
/-- The candidate-selection cascade of `GestureRecognizer.recognize`
(lines before the state-machine call), with the punch detector's state
threaded through. The source's `if/elif` chain runs the punch detector only
when neither crossed-arms nor hands-raised fired, the squat detector only
when nothing fired yet (short-circuit `and`), and the lean detector only
when still nothing fired. A squat `ZeroDivisionError` aborts the call after
the punch detector has already mutated its state. -/
noncomputable def recognizeCandidate (f : Frame) (c : CalibrationData)
    (st : PunchState) : DivResult (Option String × ℚ) × PunchState :=
  if crossedArmsDetect f then (DivResult.ok (some "block", 0.9), st)
  else if handsRaisedDetect f then (DivResult.ok (some "jump", 0.9), st)
  else
    let pr := punchDetect f c st
    if pr.1 = some "punch_right" then
      (DivResult.ok (some "attack_basic", 0.85), pr.2)
    else if pr.1 = some "punch_left" then
      (DivResult.ok (some "attack_special", 0.85), pr.2)
    else
      match squatDetect f c with
      | DivResult.divByZero => (DivResult.divByZero, pr.2)
      | DivResult.ok b =>
        if b then (DivResult.ok (some "crouch", 0.8), pr.2)
        else if leanDetect f c = some "lean_left" then
          (DivResult.ok (some "move_left", 0.75), pr.2)
        else if leanDetect f c = some "lean_right" then
          (DivResult.ok (some "move_right", 0.75), pr.2)
        else (DivResult.ok (none, 0), pr.2)

open Classical in
/-- The squat detector as the specification describes it (§4.4/§7): report
no detection — rather than fail — when the baseline torso length is zero. -/
noncomputable def specSquatDetect (f : Frame) (c : CalibrationData) : Bool :=
  if c.torso_length = 0 then false else squatVal f c

open Classical in
/-- The arbitration policy as the specification words it (§4.7): run the
detectors in the fixed priority order crossed-arms, hands-raised,
punch (right before left), squat, lean, stop at the first positive result
with its fixed confidence, and produce "none"/0.0 if none fire. -/
noncomputable def arbitrationSpec (f : Frame) (c : CalibrationData)
    (st : PunchState) : Option String × ℚ :=
  match
    [ if crossedArmsDetect f then some ("block", (0.9 : ℚ)) else none,
      if handsRaisedDetect f then some ("jump", 0.9) else none,
      if (punchDetect f c st).1 = some "punch_right" then
        some ("attack_basic", 0.85)
      else if (punchDetect f c st).1 = some "punch_left" then
        some ("attack_special", 0.85)
      else none,
      if specSquatDetect f c then some ("crouch", 0.8) else none,
      if leanDetect f c = some "lean_left" then some ("move_left", 0.75)
      else if leanDetect f c = some "lean_right" then some ("move_right", 0.75)
      else none ].findSome? id
  with
  | some (g, conf) => (some g, conf)
  | none => (none, 0)

/-- C6: whenever the baseline torso length is nonzero (so the squat division
is defined), the candidate produced by `GestureRecognizer.recognize`'s
cascade is exactly the first-positive-detector candidate of the
specification's fixed priority list, with its fixed confidence. -/
theorem recognize_refines_arbitration (f : Frame) (c : CalibrationData)
    (st : PunchState) (h : c.torso_length ≠ 0) :
    (recognizeCandidate f c st).1 = DivResult.ok (arbitrationSpec f c st) := by
  have hsq : squatDetect f c = DivResult.ok (squatVal f c) := by
    rw [squatDetect, if_neg h]
  have hspec : specSquatDetect f c = squatVal f c := by
    rw [specSquatDetect, if_neg h]
  unfold recognizeCandidate arbitrationSpec
  rw [hsq, hspec]
  by_cases hc : crossedArmsDetect f = true <;>
    by_cases hh : handsRaisedDetect f = true <;>
    by_cases hr : (punchDetect f c st).1 = some "punch_right" <;>
    by_cases hl : (punchDetect f c st).1 = some "punch_left" <;>
    by_cases hs : squatVal f c = true <;>
    by_cases hll : leanDetect f c = some "lean_left" <;>
    by_cases hlr : leanDetect f c = some "lean_right" <;>
    simp [hc, hh, hr, hl, hs, hll, hlr, List.findSome?]

/-- A frame on which the crossed-arms detector fires (wrists crossed past the
body center, vertically between shoulders and hips, fully visible). -/
def crossedFrame : Frame :=
  ⟨⟨0.4, 0.3, 0, 1⟩, ⟨0.6, 0.3, 0, 1⟩, ⟨0.4, 0.7, 0, 1⟩, ⟨0.6, 0.7, 0, 1⟩,
   ⟨0.7, 0.5, 0, 1⟩, ⟨0.3, 0.5, 0, 1⟩, 0⟩

/-- Witness for C6 at a concrete input with a nonzero baseline torso length. -/
theorem recognize_refines_arbitration_witness :
    calibNeutralZero.torso_length ≠ 0 ∧
    (recognizeCandidate crossedFrame calibNeutralZero initPunchState).1 =
      DivResult.ok (arbitrationSpec crossedFrame calibNeutralZero initPunchState) :=
  ⟨by norm_num [calibNeutralZero],
   recognize_refines_arbitration crossedFrame calibNeutralZero initPunchState
     (by norm_num [calibNeutralZero])⟩

/-- C10: on a frame where the crossed-arms or the hands-raised detector is
positive, the cascade never invokes the punch detector, so the punch
detector's state (stored previous frame and both velocity histories) is
returned unchanged. -/
theorem punch_state_untouched (f : Frame) (c : CalibrationData) (st : PunchState)
    (h : crossedArmsDetect f = true ∨ handsRaisedDetect f = true) :
    (recognizeCandidate f c st).2 = st := by
  unfold recognizeCandidate
  rcases h with h | h
  · rw [if_pos h]
  · by_cases hc : crossedArmsDetect f = true
    · rw [if_pos hc]
    · rw [if_neg hc, if_pos h]

/-- Witness for C10: `crossedFrame` triggers the crossed-arms detector, and a
punch state with a buffered frame and nonempty histories is left intact. -/
theorem punch_state_untouched_witness :
    crossedArmsDetect crossedFrame = true ∧
    (recognizeCandidate crossedFrame calibNeutralZero
      ⟨some punchFrame0, [1.0], [2.0]⟩).2 = ⟨some punchFrame0, [1.0], [2.0]⟩ := by
  have hcf : crossedArmsDetect crossedFrame = true := by
    rw [crossedArmsDetect, decide_eq_true_eq]
    refine ⟨?_, ?_, ⟨?_, ?_⟩, ⟨?_, ?_⟩, ?_, ?_⟩ <;>
      norm_num [crossedFrame, shoulder_center_x, shoulder_center_y, hip_center_y,
        crossed_arms_offset, min_visibility]
  exact ⟨hcf, punch_state_untouched crossedFrame calibNeutralZero
    ⟨some punchFrame0, [1.0], [2.0]⟩ (Or.inl hcf)⟩

/-! ## Calibration system (`CalibrationSystem` in `calibration.py`) -/

/-- Source `utils.calculate_distance`: Euclidean distance between two 2-D points. -/
noncomputable def calculate_distance (p q : ℝ × ℝ) : ℝ :=
  Real.sqrt ((p.1 - q.1) ^ 2 + (p.2 - q.2) ^ 2)

/-- Source `CalibrationSystem._finalize_calibration`: trim the first and last 10 %
of the collected frames (fall back to the full list if trimming leaves
nothing), average the per-frame torso angle, shoulder width, torso length,
hip height and wrist depth, and set `is_calibrated`. With no frames at all
the data is left unchanged (the source prints a failure and returns). -/
noncomputable def finalize_calibration (d : CalibrationData) : CalibrationData :=
  if d.calibration_frames.length = 0 then d
  else
    let frames := d.calibration_frames
    let start_idx := frames.length / 10
    let end_idx := frames.length - start_idx
    let trimmed := (frames.drop start_idx).take (end_idx - start_idx)
    let valid_frames := if trimmed.length = 0 then frames else trimmed
    let n : ℝ := valid_frames.length
    { neutral_torso_angle := (valid_frames.map frameTorsoAngle).sum / n
      shoulder_width := (valid_frames.map (fun fr => calculate_distance
        (fr.left_shoulder.x, fr.left_shoulder.y)
        (fr.right_shoulder.x, fr.right_shoulder.y))).sum / n
      torso_length := (valid_frames.map (fun fr => calculate_distance
        (shoulder_center_x fr, shoulder_center_y fr)
        (hip_center_x fr, hip_center_y fr))).sum / n
      neutral_hip_height := (valid_frames.map hip_center_y).sum / n
      wrist_neutral_z := (valid_frames.map (fun fr =>
        (fr.left_wrist.z + fr.right_wrist.z) / 2)).sum / n
      is_calibrated := true
      calibration_frames := d.calibration_frames }

/-- The mutable fields of `CalibrationSystem`: configured duration, optional
session start wall-clock time, and the baseline under construction. -/
structure CalibSession where
  duration : ℚ
  start_time : Option ℚ
  calibration_data : CalibrationData

/-- Source `CalibrationSystem.__init__`. -/
def initCalibrationSystem : CalibSession :=
  ⟨calibration_duration, none, initCalibrationData⟩

/-- Source `CalibrationSystem.start_calibration` at wall-clock time `now`: records
the start time and clears the frame buffer. -/
def start_calibration (s : CalibSession) (now : ℚ) : CalibSession :=
  { s with
     start_time := some now
     calibration_data :=
       { s.calibration_data with calibration_frames := [] } }

/-- Source `CalibrationSystem.update` at wall-clock time `now`: reports
`(is_complete, progress)` and the new session state. Before `start()` it
returns `(False, 0.0)` without collecting; otherwise it appends the frame and,
once `elapsed >= duration`, finalizes and returns `(True, 1.0)` — on EVERY
such call, there is no latching flag. -/
noncomputable def calibUpdate (s : CalibSession) (f : Frame) (now : ℚ) :
    (Bool × ℚ) × CalibSession :=
  match s.start_time with
  | none => ((false, 0), s)
  | some t0 =>
    let elapsed := now - t0
    let progress := min (elapsed / s.duration) 1
    let s1 : CalibSession :=
      { s with calibration_data :=
          { s.calibration_data with calibration_frames :=
              s.calibration_data.calibration_frames ++ [f] } }
    if elapsed ≥ s.duration then
      ((true, 1),
       { s1 with calibration_data := finalize_calibration s1.calibration_data })
    else ((false, progress), s1)

/-- Finalization on a nonempty frame buffer sets `is_calibrated`. -/
lemma finalize_is_calibrated (d : CalibrationData)
    (h : d.calibration_frames ≠ []) :
    (finalize_calibration d).is_calibrated = true := by
  unfold finalize_calibration
  rw [if_neg (by simpa using h)]

/-- The completing branch of `calibUpdate`, in one equation. -/
lemma calibUpdate_done (s : CalibSession) (f : Frame) (now t0 : ℚ)
    (h0 : s.start_time = some t0) (h : now - t0 ≥ s.duration) :
    calibUpdate s f now =
      ((true, 1),
       { s with calibration_data := finalize_calibration { s.calibration_data with calibration_frames := s.calibration_data.calibration_frames ++ [f] } }) := by
  unfold calibUpdate
  rw [h0]
  exact if_pos h

/-! ## Claims about calibration completion (C7) -/

/-- C7 (amended): EVERY observation call whose elapsed time has reached the
configured duration finalizes the baseline and returns `complete = true` —
including calls made after a previous completion; `complete = true` is not
returned exactly once. -/
theorem calib_update_completes (s : CalibSession) (f : Frame) (now t0 : ℚ)
    (h0 : s.start_time = some t0) (h : now - t0 ≥ s.duration) :
    (calibUpdate s f now).1 = (true, 1) ∧
    (calibUpdate s f now).2.calibration_data.is_calibrated = true := by
  rw [calibUpdate_done s f now t0 h0 h]
  refine ⟨rfl, finalize_is_calibrated _ ?_⟩
  simp

/-- A calibration session started at wall-clock time 0. -/
def calibSess0 : CalibSession := start_calibration initCalibrationSystem 0

/-- The session state after the first completing observation call. -/
noncomputable def calibSess1 : CalibSession :=
  { calibSess0 with calibration_data := finalize_calibration { calibSess0.calibration_data with calibration_frames := calibSess0.calibration_data.calibration_frames ++ [punchFrame0] } }

/-- First observation call of the C7 trace, at t = 3 (duration reached). -/
noncomputable def calibRun1 : (Bool × ℚ) × CalibSession :=
  calibUpdate calibSess0 punchFrame0 3

/-- Second observation call of the C7 trace, at t = 4 (same session). -/
noncomputable def calibRun2 : (Bool × ℚ) × CalibSession :=
  calibUpdate calibRun1.2 punchFrame0 4

/-- C7 counterexample: a session started at t = 0 with the default 3 s
duration returns `complete = true` at t = 3 AND AGAIN at t = 4 — the claim's
"returns complete = true exactly once" fails on the later call. -/
theorem calib_complete_twice : calibRun1.1.1 = true ∧ calibRun2.1.1 = true := by
  have e1 : calibRun1 = ((true, 1), calibSess1) :=
    calibUpdate_done calibSess0 punchFrame0 3 0 rfl
      (by norm_num [calibSess0, start_calibration, initCalibrationSystem,
        calibration_duration])
  have e2 : calibRun2.1.1 = true := by
    show (calibUpdate calibRun1.2 punchFrame0 4).1.1 = true
    rw [e1]
    rw [calibUpdate_done calibSess1 punchFrame0 4 0 rfl
      (by norm_num [calibSess1, calibSess0, start_calibration,
        initCalibrationSystem, calibration_duration])]
  exact ⟨by rw [e1], e2⟩

/-- Witness for the amended C7 at a concrete session and time. -/
theorem calib_update_completes_witness :
    calibSess0.start_time = some 0 ∧ (3 : ℚ) - 0 ≥ calibSess0.duration ∧
    (calibUpdate calibSess0 punchFrame0 3).1 = (true, 1) ∧
    (calibUpdate calibSess0 punchFrame0 3).2.calibration_data.is_calibrated
      = true := by
  have hd : (3 : ℚ) - 0 ≥ calibSess0.duration := by
    norm_num [calibSess0, start_calibration, initCalibrationSystem,
      calibration_duration]
  exact ⟨rfl, hd, (calib_update_completes calibSess0 punchFrame0 3 0 rfl hd).1,
    (calib_update_completes calibSess0 punchFrame0 3 0 rfl hd).2⟩

/-- C6 counterexample: with the all-zero (un-calibrated) baseline and a frame
on which no detector of higher priority than squat fires, the cascade does
not produce any candidate — the squat division raises `ZeroDivisionError`
(the claim's "if none fire the candidate is none with confidence 0.0" fails
for a zero baseline torso length). -/
theorem recognize_zero_torso_counterexample :
    (recognizeCandidate leanSymFrame initCalibrationData initPunchState).1 =
      DivResult.divByZero := by
  have hcr : crossedArmsDetect leanSymFrame = false := by
    rw [crossedArmsDetect, decide_eq_false_iff_not]
    rintro ⟨h1, -⟩
    rw [shoulder_center_x] at h1
    norm_num [leanSymFrame, crossed_arms_offset] at h1
  have hhr : handsRaisedDetect leanSymFrame = false := by
    rw [handsRaisedDetect, decide_eq_false_iff_not]
    rintro ⟨h1, -⟩
    rw [frame_torso_length,
      show shoulder_center_y leanSymFrame - hip_center_y leanSymFrame = -0.4 by
        rw [shoulder_center_y, hip_center_y]; norm_num [leanSymFrame],
      abs_of_nonpos (by norm_num), shoulder_center_y] at h1
    norm_num [leanSymFrame, hands_raised_ratio] at h1
  have hpd : punchDetect leanSymFrame initCalibrationData initPunchState =
      (none, { initPunchState with prev_landmarks := some leanSymFrame }) := rfl
  have hsq : squatDetect leanSymFrame initCalibrationData =
      DivResult.divByZero := by
    rw [squatDetect, if_pos (show initCalibrationData.torso_length = 0 from rfl)]
  unfold recognizeCandidate
  simp [hcr, hhr, hpd, hsq]
